import Mathlib

/-!
Shallow embedding of the Dynamic QR service (Express/Mongoose application).

The data model follows `models/DynamicQR.js`; the operations follow
`controllers/scanController.js` (scan dispatcher, QR CRUD controller),
`utils/qrGenerator.js` and `middleware/upload.js`.

External collaborators are modelled explicitly:
* the document repository is a list of records (`Store`) with
  `findOneById` / `findOneActive` / `saveRecord` mirroring
  `findOne({id})`, `findOne({id, isActive: true})` and `doc.save()`.
  `doc.save()` first runs document validation on the modified paths
  (validateBeforeSave, before any user pre-save hook) — so a save whose
  caller modified `contentHistory` past 50 entries is rejected with a
  ValidationError — and only then the user pre-save trim hook and the
  physical write;
* the blob store and the QR-image directory are sets of path strings
  (`BlobStore`), with `fs.existsSync` / `fs.unlinkSync` as membership
  and removal;
* fallibility of external writes (`qr.save()`, `QRCode.toFile`) is an
  explicit boolean parameter of the embedded controller, so that both
  the success and the failure path of the source's try/catch logic are
  captured;
* timestamps (`Date.now()` / `new Date()`) are an explicit `now : Nat`
  parameter; the random id generator is an explicit candidate function
  `gen : Nat -> String`.

JavaScript string truthiness (`undefined` and `""` are falsy) is
modelled by `truthy` over `Option String`.
-/

/-- JS truthiness of an optional string field: `undefined`/absent and `""` are falsy. -/
def truthy : Option String → Bool
  | none => false
  | some s => s != ""

/-- ASCII whitespace, as matched by JS `String.prototype.trim` / regex `\s` on ASCII input. -/
def isWhiteChar (c : Char) : Bool :=
  c == ' ' || c == '\t' || c == '\n' || c == '\r'

/-- Model of JS `String.prototype.trim`: strip leading and trailing whitespace. -/
def jsTrim (s : String) : String :=
  String.mk (((s.data.dropWhile isWhiteChar).reverse.dropWhile isWhiteChar).reverse)

/-- Character-list test that `p` begins `s` (kernel-computable model of JS
`String.prototype.startsWith`). -/
def listLeads : List Char → List Char → Bool
  | [], _ => true
  | _ :: _, [] => false
  | c :: cs, d :: ds => c == d && listLeads cs ds

/-- JS `s.startsWith(p)`. -/
def jsStartsWith (s p : String) : Bool :=
  listLeads p.data s.data

/-- JS `s.substring(0, n)`. -/
def jsTake (s : String) (n : Nat) : String :=
  String.mk (s.data.take n)

/-- Drop the first `n` characters of a string. -/
def jsDrop (s : String) (n : Nat) : String :=
  String.mk (s.data.drop n)

/-- Split a character list on a separator (model of JS `String.split`). -/
def splitOnChar (sep : Char) : List Char → List (List Char)
  | [] => [[]]
  | c :: cs =>
    let r := splitOnChar sep cs
    if c == sep then [] :: r
    else
      match r with
      | [] => [[c]]
      | h :: t => (c :: h) :: t

/-- One content payload, after `currentContentSchema` in `models/DynamicQR.js`:
a `type` tag plus the conditional fields of the tagged union. -/
structure QRContent where
  type : String
  text : Option String := none
  url : Option String := none
  linkTitle : Option String := none
  fileName : Option String := none
  originalName : Option String := none
  filePath : Option String := none
  fileSize : Option Nat := none
  mimeType : Option String := none
  contactName : Option String := none
  phone : Option String := none
  email : Option String := none
  company : Option String := none
  description : Option String := none
  lastUpdated : Nat := 0
  deriving DecidableEq, Repr

/-- One entry of `contentHistory`, after `contentHistorySchema`. -/
structure HistoryEntry where
  type : String
  content : QRContent
  changedAt : Nat
  deriving DecidableEq, Repr

/-- The `settings` subdocument of a record. -/
structure QRSettings where
  allowTracking : Bool := true
  customDomain : Option String := none
  password : Option String := none
  deriving DecidableEq, Repr

/-- A persisted QR record, after `dynamicQRSchema` in `models/DynamicQR.js`. -/
structure DynamicQR where
  id : String
  title : String
  qrCodePath : String
  currentContent : QRContent
  createdDate : Nat := 0
  scanCount : Nat := 0
  lastScanned : Option Nat := none
  contentHistory : List HistoryEntry := []
  isActive : Bool := true
  settings : QRSettings := {}
  deriving DecidableEq, Repr

/-- The document repository, as a list of records. -/
abbrev Store := List DynamicQR

/-- The blob store (uploaded files, generated QR images): the set of existing paths. -/
abbrev BlobStore := List String

/-- `DynamicQR.findOne({ id })`. -/
def findOneById (store : Store) (id : String) : Option DynamicQR :=
  store.find? (fun q => q.id == id)

/-- `DynamicQR.findOne({ id, isActive: true })`. -/
def findOneActive (store : Store) (id : String) : Option DynamicQR :=
  store.find? (fun q => q.id == id && q.isActive)

/-- `fs.existsSync` on a blob path. -/
def fsExists (blobs : BlobStore) (p : String) : Bool :=
  blobs.contains p

/-- Keep the last `n` elements of a list, evicting the oldest (front) first. -/
def takeLast {α : Type} (n : Nat) (l : List α) : List α :=
  l.drop (l.length - n)

/-- The schema's pre-save middleware: if `contentHistory` exceeds 50 entries,
keep only the most recent 50 (`this.contentHistory.slice(-50)`). -/
def preSave (qr : DynamicQR) : DynamicQR :=
  if qr.contentHistory.length > 50 then
    { qr with contentHistory := qr.contentHistory.drop (qr.contentHistory.length - 50) }
  else qr

/-- Replace every stored record with the saved document's id by the saved document. -/
def replaceById (store : Store) (qr : DynamicQR) : Store :=
  store.map (fun q => if q.id == qr.id then preSave qr else q)

/-- The schema's `contentHistory` validator (`v.length <= 50`,
`models/DynamicQR.js:173-183`). -/
def validateHistory (qr : DynamicQR) : Bool :=
  qr.contentHistory.length ≤ 50

/-- Physically persist a document after its hooks ran: update the stored
record with the same id, insert the new document otherwise. -/
def persistRecord (store : Store) (qr : DynamicQR) : Store :=
  if store.any (fun q => q.id == qr.id) then replaceById store qr
  else store ++ [preSave qr]

/-- `doc.save()`. Mongoose first validates the modified paths of the document
(validateBeforeSave, before any user pre-save hook): when the caller modified
`contentHistory` (`historyModified = true`) and it exceeds 50 entries, the
save is rejected with a ValidationError (`none`) and nothing is persisted —
the user pre-save trim hook of `DynamicQR.js:211-217` runs only after
validation has already passed, so it never rescues an over-long modified
history. Otherwise the trim hook runs and the document is persisted.
`historyModified` is `true` exactly at the call sites that touched
`contentHistory` (`addToHistory`, a brand-new document) and `false` for the
counter-only save of `incrementScan`. -/
def saveRecord (store : Store) (qr : DynamicQR) (historyModified : Bool) :
    Option Store :=
  if historyModified && !(validateHistory qr) then none
  else some (persistRecord store qr)

/-- Instance method `addToHistory`: push the superseded content onto `contentHistory`. -/
def addToHistory (qr : DynamicQR) (old : QRContent) (now : Nat) : DynamicQR :=
  { qr with contentHistory :=
      qr.contentHistory ++ [{ type := old.type, content := old, changedAt := now }] }

/-- Instance method `incrementScan` (in-memory mutation; the accompanying
`save()` is applied by the caller through `saveRecord`). -/
def incrementScan (qr : DynamicQR) (now : Nat) : DynamicQR :=
  { qr with scanCount := qr.scanCount + 1, lastScanned := some now }

/-- `checkQRPassword`: no (or falsy, i.e. empty) stored password always passes;
otherwise the supplied query password must be strictly equal. -/
def checkQRPassword (qr : DynamicQR) (provided : Option String) : Bool :=
  match qr.settings.password with
  | none => true
  | some p => if p == "" then true else provided == some p

/-- The mime families served with `Content-Disposition: inline` by
`handleFileServing`: image, pdf, text, video, audio. -/
def isViewableMime (mt : String) : Bool :=
  jsStartsWith mt "image/" || mt == "application/pdf" || jsStartsWith mt "text/" ||
  jsStartsWith mt "video/" || jsStartsWith mt "audio/"

/-- The response strategies the scan dispatcher can decide on, one constructor
per distinct HTTP behaviour of `scanController.js`. -/
inductive Directive where
  | notFoundPage (id : String)
  | passwordRequired (title : String) (scanCount : Nat)
  | renderEmpty (title description : String) (scanCount : Nat)
  | renderText (title body : String) (scanCount : Nat)
  | redirect (url : String)
  | streamFile (filePath mimeType : String) (fileSize : Nat)
      (originalName disposition : String)
  | blobMissingPage (title : String) (scanCount : Nat)
  | contactCard (title : String) (contactName phone email company : Option String)
      (scanCount : Nat)
  | vcardExport (payload fileName : String)
  | serverErrorPage
  | notFoundJson
  | previewPage (title ctype body : String) (scanCount : Nat)
  | notFoundText
  deriving DecidableEq, Repr

/-- `handleFileServing`: missing/absent blob renders the file-not-found page;
otherwise the blob is streamed, `inline` for viewable mime families and
`attachment` otherwise. -/
def handleFileServing (qr : DynamicQR) (content : QRContent) (blobs : BlobStore) :
    Directive :=
  if !(truthy content.filePath) || !(fsExists blobs (content.filePath.getD "")) then
    .blobMissingPage qr.title qr.scanCount
  else
    let mt := content.mimeType.getD ""
    .streamFile (content.filePath.getD "") mt (content.fileSize.getD 0)
      (content.originalName.getD "")
      (if isViewableMime mt then "inline" else "attachment")

/-- `generateVCard`: the structured contact export, built from the contact
fields that are present, terminated by the fixed `END:VCARD` trailer. -/
def generateVCard (content : QRContent) : String :=
  let v1 := "BEGIN:VCARD\nVERSION:3.0\n"
  let v2 := if truthy content.contactName then
      v1 ++ "FN:" ++ content.contactName.getD "" ++ "\n" ++
        "N:" ++ content.contactName.getD "" ++ ";;;;\n"
    else v1
  let v3 := if truthy content.phone then
      v2 ++ "TEL;TYPE=CELL:" ++ content.phone.getD "" ++ "\n" else v2
  let v4 := if truthy content.email then
      v3 ++ "EMAIL:" ++ content.email.getD "" ++ "\n" else v3
  let v5 := if truthy content.company then
      v4 ++ "ORG:" ++ content.company.getD "" ++ "\n" else v4
  v5 ++ "END:VCARD"

/-- `handleContactDisplay`: vCard download when `format` asks for it, the
HTML contact card otherwise. -/
def handleContactDisplay (qr : DynamicQR) (content : QRContent)
    (format : Option String) : Directive :=
  if format == some "vcard" || format == some "vcf" then
    .vcardExport (generateVCard content)
      ((if truthy content.contactName then content.contactName.getD "" else "contact")
        ++ ".vcf")
  else
    .contactCard qr.title content.contactName content.phone content.email
      content.company qr.scanCount

/-- Result of a scan-dispatcher request: the chosen directive and the
repository state after the request. -/
structure ScanOutcome where
  directive : Directive
  store : Store
  deriving DecidableEq, Repr

/-- `scanQR` (`GET /scan/:id`): lookup of the active record, password gate,
counting (`incrementScan` + save), then the branch on the active content tag. -/
def scanQR (store : Store) (blobs : BlobStore) (id : String)
    (password format : Option String) (now : Nat) : ScanOutcome :=
  match findOneActive store id with
  | none => ⟨.notFoundPage id, store⟩
  | some qr =>
    if !(checkQRPassword qr password) then
      ⟨.passwordRequired qr.title qr.scanCount, store⟩
    else
      let qr1 := incrementScan qr now
      match saveRecord store qr1 false with
      | none => ⟨.serverErrorPage, store⟩
      | some store1 =>
        let content := qr1.currentContent
        if content.type == "empty" then
          ⟨.renderEmpty qr1.title
            (if truthy content.description then content.description.getD ""
             else "Content tez orada qo\x27shiladi") qr1.scanCount, store1⟩
        else if content.type == "text" then
          ⟨.renderText qr1.title (content.text.getD "") qr1.scanCount, store1⟩
        else if content.type == "link" then
          ⟨.redirect (content.url.getD ""), store1⟩
        else if content.type == "file" then
          ⟨handleFileServing qr1 content blobs, store1⟩
        else if content.type == "contact" then
          ⟨handleContactDisplay qr1 content format, store1⟩
        else
          ⟨.serverErrorPage, store1⟩

/-- The preview body shown by `previewQR` for each content tag (the data that
feeds the preview HTML; presentation markup is not modelled). -/
def previewBody (content : QRContent) : String :=
  if content.type == "text" then
    let t := content.text.getD ""
    if t.length > 200 then jsTake t 200 ++ "..." else t
  else if content.type == "link" then
    if truthy content.linkTitle then content.linkTitle.getD "" else content.url.getD ""
  else if content.type == "file" then content.originalName.getD ""
  else if content.type == "contact" then
    content.contactName.getD "" ++ content.phone.getD "" ++ content.email.getD "" ++
      content.company.getD ""
  else ""

/-- `previewQR` (`GET /api/preview/:id`): render a preview of the active
content without `incrementScan`, analytics or any save. -/
def previewQR (store : Store) (id : String) : ScanOutcome :=
  match findOneActive store id with
  | none => ⟨.notFoundJson, store⟩
  | some qr =>
    ⟨.previewPage qr.title qr.currentContent.type (previewBody qr.currentContent)
      qr.scanCount, store⟩

/-- `quickRedirect` (`GET /r/:id`): for a `link` record count the scan and
redirect to the stored URL; for every other tag redirect to the scan page
without counting. There is no password check on this endpoint. -/
def quickRedirect (store : Store) (id : String) (now : Nat) : ScanOutcome :=
  match findOneActive store id with
  | none => ⟨.notFoundText, store⟩
  | some qr =>
    if qr.currentContent.type == "link" then
      let qr1 := incrementScan qr now
      match saveRecord store qr1 false with
      | none => ⟨.serverErrorPage, store⟩
      | some store1 => ⟨.redirect (qr1.currentContent.url.getD ""), store1⟩
    else
      ⟨.redirect ("/scan/" ++ id), store⟩

/-- The error taxonomy raised by the controllers through `createAppError`
(and a propagated repository failure for a failing `save()`). -/
inductive AppError where
  | notFound
  | missingField (f : String)
  | invalidContentType
  | emptyText
  | textTooLong
  | emptyUrl
  | invalidUrl
  | fileRequired
  | contactRequired
  | invalidPhone
  | invalidEmail
  | titleTooLong
  | historyTooLong
  | allocationExhausted
  | qrGenerationFailed
  | saveFailed
  deriving DecidableEq, Repr

/-- The HTTP status each error is surfaced with (`createAppError`'s second
argument; repository/image failures propagate as 500). -/
def errorStatus : AppError → Nat
  | .notFound => 404
  | .allocationExhausted => 500
  | .qrGenerationFailed => 500
  | .saveFailed => 500
  | _ => 400

/-- `validateContentType`'s whitelist of tags. -/
def allowedContentTypes : List String :=
  ["text", "link", "file", "contact", "empty"]

/-- `validateUrl`: the URL must parse as an absolute URL whose protocol is
`http:` or `https:` (model of `new URL(url)` plus the protocol whitelist). -/
def urlOk (s : String) : Bool :=
  (jsStartsWith s "http://" && s.length > 7) ||
  (jsStartsWith s "https://" && s.length > 8)

/-- `validatePhone`'s pattern `^\+?[\d\s\-\(\)]{7,20}$`: an optional leading
plus, then 7 to 20 characters drawn from digits, whitespace, dash, parens. -/
def phoneOk (s : String) : Bool :=
  let core := if jsStartsWith s "+" then jsDrop s 1 else s
  7 ≤ core.length && core.length ≤ 20 &&
    core.data.all (fun c => c.isDigit || isWhiteChar c || c == '-' || c == '(' || c == ')')

/-- `validateEmail`'s pattern `^[^\s@]+@[^\s@]+\.[^\s@]+$`: no whitespace,
exactly one at-sign with a nonempty local part, and a dot strictly inside
the domain part. -/
def emailOk (s : String) : Bool :=
  match splitOnChar '@' s.data with
  | [a, b] =>
    a.length > 0 && s.data.all (fun c => !(isWhiteChar c)) &&
      (List.range b.length).any
        (fun i => b.getD i ' ' == '.' && 0 < i && i + 1 < b.length)
  | _ => false

/-- The uploaded blob attached to a request by the upload middleware
(`req.file`). -/
structure UploadedFile where
  filename : String
  originalname : String
  path : String
  size : Nat
  mimetype : String
  deriving DecidableEq, Repr

/-- The body (and attached upload) of a content-update request. -/
structure UpdateReq where
  contentType : Option String := none
  text : Option String := none
  url : Option String := none
  linkTitle : Option String := none
  contactName : Option String := none
  phone : Option String := none
  email : Option String := none
  company : Option String := none
  description : Option String := none
  file : Option UploadedFile := none
  deriving DecidableEq, Repr

/-- `deleteFile` of the upload middleware: unlink the path when it exists
(best effort, no error on a missing path). -/
def deleteFile (blobs : BlobStore) (p : String) : BlobStore :=
  if p != "" && fsExists blobs p then blobs.erase p else blobs

/-- The tag-specific switch of `updateQRContent` that validates the request
fields and builds the new content value (fail-fast on the first violation). -/
def buildNewContent (ct : String) (req : UpdateReq) (now : Nat) :
    Except AppError QRContent :=
  let base : QRContent :=
    { type := ct, description := some (req.description.getD ""), lastUpdated := now }
  if ct == "text" then
    if !(truthy req.text) || (jsTrim (req.text.getD "")).length == 0 then
      .error .emptyText
    else if (req.text.getD "").length > 5000 then
      .error .textTooLong
    else
      .ok { base with text := some (jsTrim (req.text.getD "")) }
  else if ct == "link" then
    if !(truthy req.url) || (jsTrim (req.url.getD "")).length == 0 then
      .error .emptyUrl
    else if !(urlOk (jsTrim (req.url.getD ""))) then
      .error .invalidUrl
    else
      .ok { base with
            url := some (jsTrim (req.url.getD ""))
            linkTitle := some (if truthy (req.linkTitle.map jsTrim) then
                jsTrim (req.linkTitle.getD "")
              else jsTrim (req.url.getD "")) }
  else if ct == "file" then
    match req.file with
    | none => .error .fileRequired
    | some f =>
      .ok { base with
            fileName := some f.filename
            originalName := some f.originalname
            filePath := some f.path
            fileSize := some f.size
            mimeType := some f.mimetype }
  else if ct == "contact" then
    if !(truthy req.contactName) && !(truthy req.phone) && !(truthy req.email) then
      .error .contactRequired
    else
      let c1 := if truthy req.contactName then
          { base with contactName := some (jsTrim (req.contactName.getD "")) }
        else base
      if truthy req.phone && !(phoneOk (jsTrim (req.phone.getD ""))) then
        .error .invalidPhone
      else
        let c2 := if truthy req.phone then
            { c1 with phone := some (jsTrim (req.phone.getD "")) } else c1
        if truthy req.email && !(emailOk (jsTrim (req.email.getD ""))) then
          .error .invalidEmail
        else
          let c3 := if truthy req.email then
              { c2 with email := some (jsTrim (req.email.getD "")) } else c2
          .ok (if truthy req.company then
              { c3 with company := some (jsTrim (req.company.getD "")) } else c3)
  else if ct == "empty" then
    .ok { base with description := some "Content o\x27chirildi" }
  else
    .error .invalidContentType

/-- Result of a content-update request: the error (if any) and the repository
and blob-store states after the call. -/
structure UpdateOutcome where
  error : Option AppError
  store : Store
  blobs : BlobStore
  deriving DecidableEq, Repr

/-- `updateQRContent` (`PUT /api/qr/:id/content`), with the source's exact
effect order: find the record, validate the tag, push the superseded content
to history, delete the old file blob when a new upload is attached, build and
validate the new content, set it as `currentContent`, then `save()` — whose
success is the `saveOk` parameter. -/
def updateQRContent (store : Store) (blobs : BlobStore) (id : String)
    (req : UpdateReq) (now : Nat) (saveOk : Bool) : UpdateOutcome :=
  match findOneById store id with
  | none => ⟨some .notFound, store, blobs⟩
  | some qr =>
    match req.contentType with
    | none => ⟨some (.missingField "contentType"), store, blobs⟩
    | some ct =>
      if !(allowedContentTypes.contains ct) then
        ⟨some .invalidContentType, store, blobs⟩
      else
        let qr1 := addToHistory qr qr.currentContent now
        let blobs1 :=
          if qr.currentContent.type == "file" && truthy qr.currentContent.filePath
              && req.file.isSome then
            deleteFile blobs (qr.currentContent.filePath.getD "")
          else blobs
        match buildNewContent ct req now with
        | .error e => ⟨some e, store, blobs1⟩
        | .ok newContent =>
          let qr2 := { qr1 with currentContent := newContent }
          match saveRecord store qr2 true with
          | none => ⟨some .historyTooLong, store, blobs1⟩
          | some store2 =>
            if saveOk then ⟨none, store2, blobs1⟩
            else ⟨some .saveFailed, store, blobs1⟩

/-- One call of the update engine, for reasoning about sequences of updates. -/
structure UpdateCall where
  id : String
  req : UpdateReq
  now : Nat
  saveOk : Bool

/-- Run a finite sequence of content updates against the repository and the
blob store. -/
def runUpdates (store : Store) (blobs : BlobStore) (calls : List UpdateCall) :
    Store × BlobStore :=
  calls.foldl
    (fun sb call =>
      let o := updateQRContent sb.1 sb.2 call.id call.req call.now call.saveOk
      (o.store, o.blobs))
    (store, blobs)

/-- Every record persisted in the repository keeps at most 50 history entries. -/
def HistBounded (store : Store) : Prop :=
  ∀ qr ∈ store, qr.contentHistory.length ≤ 50

/-- The path `generateQRCode`/`deleteQRCode` use for the bound image of an id. -/
def qrImagePath (id : String) : String :=
  "uploads/qrcodes/dynamic_qr_" ++ id ++ ".png"

/-- `deleteQRCode`: unlink the generated image when it exists (best effort). -/
def deleteQRCode (images : BlobStore) (id : String) : BlobStore :=
  if fsExists images (qrImagePath id) then images.erase (qrImagePath id) else images

/-- The allocation loop of `createQR`: take the first candidate id for which
`findOne({id})` comes back empty. -/
def allocateFirstFresh (store : Store) : List String → Option String
  | [] => none
  | c :: rest =>
    if (findOneById store c).isNone then some c else allocateFirstFresh store rest

/-- The id allocator: up to 5 candidates from the time-plus-entropy generator
(`generateUniqueId`), each checked against the repository; `none` means the
bound was exhausted. -/
def allocateQRId (store : Store) (gen : Nat → String) : Option String :=
  allocateFirstFresh store ((List.range 5).map gen)

/-- Result of a create-record request: the error (if any), the repository and
image-directory states after the call, and the persisted record on success. -/
structure CreateOutcome where
  error : Option AppError
  store : Store
  images : BlobStore
  created : Option DynamicQR
  deriving DecidableEq, Repr

/-- The document built by `new DynamicQR({...})` in `createQR`: trimmed
title, the bound image path, `empty` content and schema defaults. -/
def newQRRecord (qrId : String) (title desc : Option String) (now : Nat) :
    DynamicQR :=
  { id := qrId
    title := jsTrim (title.getD "")
    qrCodePath := qrImagePath qrId
    currentContent :=
      { type := "empty"
        description := some (if truthy desc then desc.getD ""
          else "Content hali qo\x27shilmagan")
        lastUpdated := now }
    createdDate := now }

/-- `createQR` (`POST /api/qr/create`): validate the title, allocate a unique
id (hard stop after 5 attempts), generate and write the QR image, then save
the record with `empty` content — deleting the written image again when the
save fails. `imageGenOk` and `saveOk` are the outcomes of the two external
writes. -/
def createQR (store : Store) (images : BlobStore) (title description : Option String)
    (gen : Nat → String) (imageGenOk saveOk : Bool) (now : Nat) : CreateOutcome :=
  if !(truthy title) then ⟨some (.missingField "title"), store, images, none⟩
  else if (title.getD "").length > 200 then ⟨some .titleTooLong, store, images, none⟩
  else
    match allocateQRId store gen with
    | none => ⟨some .allocationExhausted, store, images, none⟩
    | some qrId =>
      if !imageGenOk then
        ⟨some .qrGenerationFailed, store, deleteQRCode images qrId, none⟩
      else
        let images1 := qrImagePath qrId :: images
        let newQR := newQRRecord qrId title description now
        match saveRecord store newQR true with
        | none => ⟨some .historyTooLong, store, deleteQRCode images1 qrId, none⟩
        | some store2 =>
          if !saveOk then
            ⟨some .saveFailed, store, deleteQRCode images1 qrId, none⟩
          else
            ⟨none, store2, images1, some (preSave newQR)⟩

/-- The JSON payload of `getQRScanInfo` (`GET /api/scan-info/:id`): the base
fields plus the per-tag extras of the public branch; fields the code does not
set stay `none`. -/
structure ScanInfoQR where
  id : String
  title : String
  contentType : String
  scanCount : Nat
  createdDate : Nat
  isPasswordProtected : Bool
  lastScanned : Option Nat := none
  description : Option String := none
  preview : Option String := none
  linkTitle : Option String := none
  domain : Option String := none
  fileName : Option String := none
  fileSize : Option Nat := none
  fileType : Option String := none
  contactName : Option String := none
  hasPhone : Option Bool := none
  hasEmail : Option Bool := none
  deriving DecidableEq, Repr

/-- Hostname extraction for the public link info (`new URL(url).hostname`). -/
def urlHostname (u : String) : String :=
  let rest := if jsStartsWith u "https://" then jsDrop u 8
    else if jsStartsWith u "http://" then jsDrop u 7 else u
  String.mk (rest.data.takeWhile
    (fun c => c != '/' && c != ':' && c != '?' && c != '#'))

/-- The text preview of the public info branch: the first 100 characters,
with an ellipsis when the text is longer. -/
def textInfoPreview (t : String) : String :=
  jsTake t 100 ++ (if t.length > 100 then "..." else "")

/-- `getQRScanInfo`: for a password-protected record only limited info is
returned (with a fixed notice in `description`); otherwise the public payload
with per-tag extras and `lastScanned`. -/
def getQRScanInfo (store : Store) (id : String) : Except AppError ScanInfoQR :=
  match findOneActive store id with
  | none => .error .notFound
  | some qr =>
    if truthy qr.settings.password then
      .ok { id := qr.id
            title := qr.title
            contentType := qr.currentContent.type
            scanCount := qr.scanCount
            createdDate := qr.createdDate
            isPasswordProtected := true
            description := some "Bu QR code parol bilan himoyalangan" }
    else
      let c := qr.currentContent
      let base : ScanInfoQR :=
        { id := qr.id
          title := qr.title
          contentType := c.type
          scanCount := qr.scanCount
          createdDate := qr.createdDate
          isPasswordProtected := false
          lastScanned := qr.lastScanned }
      let withTag :=
        if c.type == "text" then
          { base with preview := some (textInfoPreview (c.text.getD "")) }
        else if c.type == "link" then
          { base with
            linkTitle := c.linkTitle
            domain := some (urlHostname (c.url.getD "")) }
        else if c.type == "file" then
          { base with
            fileName := c.originalName
            fileSize := c.fileSize
            fileType := c.mimeType }
        else if c.type == "contact" then
          { base with
            contactName := c.contactName
            hasPhone := some (truthy c.phone)
            hasEmail := some (truthy c.email) }
        else base
      .ok (if truthy c.description then
          { withTag with description := some (c.description.getD "") }
        else withTag)

/-! ## Basic lemmas about the repository model -/

lemma preSave_id (q : DynamicQR) : (preSave q).id = q.id := by
  unfold preSave; split <;> rfl

lemma preSave_title (q : DynamicQR) : (preSave q).title = q.title := by
  unfold preSave; split <;> rfl

lemma preSave_scanCount (q : DynamicQR) : (preSave q).scanCount = q.scanCount := by
  unfold preSave; split <;> rfl

lemma preSave_lastScanned (q : DynamicQR) : (preSave q).lastScanned = q.lastScanned := by
  unfold preSave; split <;> rfl

lemma preSave_currentContent (q : DynamicQR) :
    (preSave q).currentContent = q.currentContent := by
  unfold preSave; split <;> rfl

lemma preSave_qrCodePath (q : DynamicQR) : (preSave q).qrCodePath = q.qrCodePath := by
  unfold preSave; split <;> rfl

lemma preSave_contentHistory (q : DynamicQR) :
    (preSave q).contentHistory = takeLast 50 q.contentHistory := by
  unfold preSave takeLast
  split
  · rfl
  · next h =>
    have hle : q.contentHistory.length ≤ 50 := by omega
    simp [Nat.sub_eq_zero_of_le hle]

lemma takeLast_length_le {α : Type} (n : Nat) (l : List α) :
    (takeLast n l).length ≤ n := by
  unfold takeLast
  rw [List.length_drop]
  omega

lemma preSave_hist_le (q : DynamicQR) : (preSave q).contentHistory.length ≤ 50 := by
  rw [preSave_contentHistory]
  exact takeLast_length_le 50 q.contentHistory

lemma findOneActive_mem {store : Store} {id : String} {qr : DynamicQR}
    (h : findOneActive store id = some qr) :
    qr ∈ store ∧ qr.id = id ∧ qr.isActive = true := by
  unfold findOneActive at h
  refine ⟨List.mem_of_find?_eq_some h, ?_, ?_⟩ <;>
  · have hp := List.find?_some h
    simp at hp
    tauto

lemma findOneById_isSome {store : Store} {id : String} {qr : DynamicQR}
    (hm : qr ∈ store) (hid : qr.id = id) : (findOneById store id).isSome := by
  unfold findOneById
  rw [List.find?_isSome]
  exact ⟨qr, hm, by simp [hid]⟩

lemma findOneById_replaceById (store : Store) (qr2 : DynamicQR) (id : String)
    (hid : qr2.id = id) (hsome : (findOneById store id).isSome) :
    findOneById (replaceById store qr2) id = some (preSave qr2) := by
  induction store with
  | nil => simp [findOneById] at hsome
  | cons q rest ih =>
    unfold findOneById replaceById at *
    simp only [List.map_cons, List.find?_cons] at *
    by_cases h : q.id = id
    · have hq : (q.id == qr2.id) = true := by simp [h, hid]
      rw [hq]
      simp only [if_true]
      have : ((preSave qr2).id == id) = true := by simp [preSave_id, hid]
      simp [this]
    · have hq : (q.id == qr2.id) = false := by simp [hid]; exact fun hc => h hc
      rw [hq]
      simp only [Bool.false_eq_true, if_false]
      have hqid : (q.id == id) = false := by simp; exact fun hc => h hc
      rw [hqid] at hsome ⊢
      simp only [Bool.false_eq_true, if_false] at hsome ⊢
      exact ih hsome

lemma findOneById_persistRecord (store : Store) (qr2 : DynamicQR) (id : String)
    (hid : qr2.id = id) (hsome : (findOneById store id).isSome) :
    findOneById (persistRecord store qr2) id = some (preSave qr2) := by
  unfold persistRecord
  have hany : store.any (fun q => q.id == qr2.id) = true := by
    rw [List.any_eq_true]
    obtain ⟨x, hx, hpx⟩ := List.find?_isSome.mp (by unfold findOneById at hsome; exact hsome)
    refine ⟨x, hx, ?_⟩
    simp at hpx ⊢
    rw [hpx, hid]
  rw [if_pos hany]
  exact findOneById_replaceById store qr2 id hid hsome

lemma mem_persistRecord {q : DynamicQR} {store : Store} {qr2 : DynamicQR}
    (h : q ∈ persistRecord store qr2) : q ∈ store ∨ q = preSave qr2 := by
  unfold persistRecord at h
  split at h
  · unfold replaceById at h
    obtain ⟨a, ha, hq⟩ := List.mem_map.mp h
    by_cases hc : (a.id == qr2.id) = true
    · right; rw [if_pos hc] at hq; exact hq.symm
    · left
      rw [if_neg hc] at hq
      exact hq ▸ ha
  · rcases List.mem_append.mp h with h1 | h2
    · left; exact h1
    · right; simpa using h2

lemma findOneById_persistRecord_fresh (store : Store) (qr2 : DynamicQR)
    (hnone : findOneById store qr2.id = none) :
    findOneById (persistRecord store qr2) qr2.id = some (preSave qr2) := by
  unfold persistRecord
  have hany : store.any (fun q => q.id == qr2.id) = false := by
    rw [List.any_eq_false]
    intro x hx
    simpa using List.find?_eq_none.mp hnone x hx
  rw [hany]
  simp only [Bool.false_eq_true, if_false]
  unfold findOneById at *
  rw [List.find?_append, hnone]
  simp [List.find?_cons, preSave_id]

lemma saveRecord_unmodified (store : Store) (qr : DynamicQR) :
    saveRecord store qr false = some (persistRecord store qr) := rfl

lemma saveRecord_of_valid (store : Store) (qr : DynamicQR) (m : Bool)
    (h : validateHistory qr = true) :
    saveRecord store qr m = some (persistRecord store qr) := by
  simp [saveRecord, h]

lemma saveRecord_modified_some {store : Store} {qr : DynamicQR} {s2 : Store}
    (h : saveRecord store qr true = some s2) :
    validateHistory qr = true ∧ s2 = persistRecord store qr := by
  cases hv : validateHistory qr with
  | true =>
    rw [saveRecord_of_valid store qr true hv] at h
    exact ⟨rfl, (Option.some_inj.mp h).symm⟩
  | false =>
    simp [saveRecord, hv] at h

lemma allocateFirstFresh_sound (store : Store) (cands : List String) (c : String)
    (h : allocateFirstFresh store cands = some c) :
    findOneById store c = none ∧ c ∈ cands := by
  induction cands with
  | nil => simp [allocateFirstFresh] at h
  | cons x rest ih =>
    unfold allocateFirstFresh at h
    by_cases hx : (findOneById store x).isNone
    · rw [if_pos hx] at h
      cases h
      exact ⟨Option.isNone_iff_eq_none.mp hx, by simp⟩
    · rw [if_neg hx] at h
      obtain ⟨h1, h2⟩ := ih h
      exact ⟨h1, by simp [h2]⟩

lemma allocateQRId_sound (store : Store) (gen : Nat → String) (c : String)
    (h : allocateQRId store gen = some c) :
    findOneById store c = none ∧ ∃ i, i < 5 ∧ gen i = c := by
  obtain ⟨h1, h2⟩ := allocateFirstFresh_sound store _ c h
  refine ⟨h1, ?_⟩
  obtain ⟨i, hi, hgi⟩ := List.mem_map.mp h2
  exact ⟨i, by simpa using hi, hgi⟩

lemma updateQRContent_store_cases (store : Store) (blobs : BlobStore) (id : String)
    (req : UpdateReq) (now : Nat) (saveOk : Bool) :
    (updateQRContent store blobs id req now saveOk).store = store ∨
    ∃ qr2, (updateQRContent store blobs id req now saveOk).store =
      persistRecord store qr2 := by
  cases hf : findOneById store id with
  | none => left; simp [updateQRContent, hf]
  | some qr =>
    cases hct : req.contentType with
    | none => left; simp [updateQRContent, hf, hct]
    | some ct =>
      by_cases hc : ct ∈ allowedContentTypes
      · cases hb : buildNewContent ct req now with
        | error e => left; simp [updateQRContent, hf, hct, hc, hb]
        | ok nc =>
          cases hsv : saveRecord store
              { addToHistory qr qr.currentContent now with currentContent := nc } true with
          | none => left; simp [updateQRContent, hf, hct, hc, hb, hsv]
          | some s2 =>
            obtain ⟨hval, hs2⟩ := saveRecord_modified_some hsv
            by_cases hs : saveOk = true
            · right
              exact ⟨{ addToHistory qr qr.currentContent now with currentContent := nc },
                by simp [updateQRContent, hf, hct, hc, hb, hsv, hs, hs2]⟩
            · left
              have hs0 : saveOk = false := by revert hs; cases saveOk <;> simp
              simp [updateQRContent, hf, hct, hc, hb, hsv, hs0]
      · left
        simp [updateQRContent, hf, hct, hc]

lemma histBounded_persistRecord {store : Store} {qr2 : DynamicQR}
    (h : HistBounded store) : HistBounded (persistRecord store qr2) := by
  intro q hq
  rcases mem_persistRecord hq with hm | rfl
  · exact h q hm
  · exact preSave_hist_le qr2

lemma histBounded_update (store : Store) (blobs : BlobStore) (id : String)
    (req : UpdateReq) (now : Nat) (saveOk : Bool) (h : HistBounded store) :
    HistBounded (updateQRContent store blobs id req now saveOk).store := by
  rcases updateQRContent_store_cases store blobs id req now saveOk with he | ⟨qr2, he⟩ <;>
    rw [he]
  · exact h
  · exact histBounded_persistRecord h

lemma histBounded_runUpdates (calls : List UpdateCall) :
    ∀ store blobs, HistBounded store → HistBounded (runUpdates store blobs calls).1 := by
  induction calls with
  | nil => intro store blobs h; exact h
  | cons c cs ih =>
    intro store blobs h
    have hstep : runUpdates store blobs (c :: cs) =
        runUpdates (updateQRContent store blobs c.id c.req c.now c.saveOk).store
          (updateQRContent store blobs c.id c.req c.now c.saveOk).blobs cs := rfl
    rw [hstep]
    exact ih _ _ (histBounded_update _ _ _ _ _ _ h)

/-! ## Claim theorems -/

/-- Concrete record for exercising the update engine: an active `file` variant
bound to blob `blob1`. -/
def qrC1 : DynamicQR :=
  { id := "q1"
    title := "T1"
    qrCodePath := "img1"
    currentContent :=
      { type := "file"
        fileName := some "f1"
        originalName := some "o1"
        filePath := some "blob1"
        fileSize := some 10
        mimeType := some "application/pdf" } }

/-- Update request attaching a freshly uploaded blob `blob2`. -/
def reqC1 : UpdateReq :=
  { contentType := some "file"
    file := some
      { filename := "f2"
        originalname := "o2"
        path := "blob2"
        size := 20
        mimetype := "application/pdf" } }

/-- C1: the claim says the old blob is deleted only after the new variant is
committed and persistence succeeds, and that a failed persistence leaves the
old blob retrievable. The code instead calls `deleteFile` on the old blob
before validation and before `qr.save()`: when the save fails, the old blob
`blob1` is already gone from the blob store while the persisted record still
references it. -/
theorem updateQRContent_old_blob_deleted_despite_save_failure :
    (updateQRContent [qrC1] ["blob1", "blob2"] "q1" reqC1 5 false).error =
        some .saveFailed ∧
    (updateQRContent [qrC1] ["blob1", "blob2"] "q1" reqC1 5 false).store = [qrC1] ∧
    qrC1.currentContent.filePath = some "blob1" ∧
    (updateQRContent [qrC1] ["blob1", "blob2"] "q1" reqC1 5 false).blobs = ["blob2"] ∧
    fsExists (updateQRContent [qrC1] ["blob1", "blob2"] "q1" reqC1 5 false).blobs
      "blob1" = false := by
  refine ⟨?_, ?_, ?_, ?_, ?_⟩ <;> decide

/-- C2: when a password is set and the supplied password is absent or wrong,
the dispatcher answers `PasswordRequired` and the repository is untouched (no
counting, no analytics), so `scanCount` and `lastScanned` are unchanged. -/
theorem scanQR_password_gate (store : Store) (blobs : BlobStore) (id : String)
    (provided format : Option String) (now : Nat) (qr : DynamicQR) (pw : String)
    (hfind : findOneActive store id = some qr)
    (hpw : qr.settings.password = some pw)
    (hne : pw ≠ "")
    (hmiss : provided ≠ some pw) :
    scanQR store blobs id provided format now =
      ⟨.passwordRequired qr.title qr.scanCount, store⟩ := by
  have hchk : checkQRPassword qr provided = false := by
    unfold checkQRPassword
    rw [hpw]
    simp [hne, hmiss]
  simp [scanQR, hfind, hchk]

/-- Record used by the C2 witness: password `abcd`, scan count 3. -/
def qrW2 : DynamicQR :=
  { id := "w2"
    title := "W2"
    qrCodePath := "img"
    currentContent := { type := "link", url := some "https://example.com" }
    scanCount := 3
    settings := { password := some "abcd" } }

/-- Witness for C2 at a concrete password-protected record and an absent
password. -/
theorem scanQR_password_gate_witness :
    (findOneActive [qrW2] "w2" = some qrW2 ∧
      qrW2.settings.password = some "abcd" ∧ ("abcd" : String) ≠ "" ∧
      (none : Option String) ≠ some "abcd") ∧
    scanQR [qrW2] [] "w2" none none 9 = ⟨.passwordRequired "W2" 3, [qrW2]⟩ :=
  ⟨⟨by decide, by decide, by decide, by decide⟩,
    scanQR_password_gate [qrW2] [] "w2" none none 9 qrW2 "abcd" (by decide) (by decide)
      (by decide) (by decide)⟩

/-- Iterated preview resolutions of the same id against the repository. -/
def iterPreview (store : Store) (id : String) : Nat → Store
  | 0 => store
  | n + 1 => (previewQR (iterPreview store id n) id).store

lemma previewQR_store (store : Store) (id : String) :
    (previewQR store id).store = store := by
  unfold previewQR
  cases findOneActive store id <;> rfl

lemma iterPreview_eq (store : Store) (id : String) :
    ∀ n, iterPreview store id n = store
  | 0 => rfl
  | n + 1 => by rw [iterPreview, previewQR_store, iterPreview_eq store id n]

/-- C4: preview mode is a pure read at the record level for every record:
whatever the store and id — and so whatever the record's tag — any number of
preview resolutions leaves the repository (hence `scanCount`, `lastScanned`
and `contentHistory` of every record) unchanged and two previews decide the
same directive; when the id resolves to an active record, every preview
round keeps resolving to the same unchanged record, and on a `link`-tag
record the directive is the preview page built from the record. -/
theorem previewQR_pure_idempotent (store : Store) (id : String) :
    (∀ n, iterPreview store id n = store) ∧
    (previewQR (previewQR store id).store id).directive =
      (previewQR store id).directive ∧
    (∀ qr, findOneActive store id = some qr →
      (∀ n, findOneActive (iterPreview store id n) id = some qr) ∧
      (qr.currentContent.type = "link" →
        (previewQR store id).directive =
          .previewPage qr.title "link" (previewBody qr.currentContent)
            qr.scanCount)) := by
  refine ⟨iterPreview_eq store id, by rw [previewQR_store], ?_⟩
  intro qr hfind
  constructor
  · intro n
    rw [iterPreview_eq store id n]
    exact hfind
  · intro htag
    simp [previewQR, hfind, htag]

/-- Record used by the C4 witness: an active `link` record. -/
def qrW4 : DynamicQR :=
  { id := "w4"
    title := "W4"
    qrCodePath := "img"
    currentContent := { type := "link", url := some "https://example.com" }
    scanCount := 11 }

/-- Witness for C4: two concrete preview rounds on a `link` record leave the
repository unchanged, agree on the directive, and render the preview page. -/
theorem previewQR_pure_idempotent_witness :
    (findOneActive [qrW4] "w4" = some qrW4 ∧ qrW4.currentContent.type = "link") ∧
    iterPreview [qrW4] "w4" 2 = [qrW4] ∧
    (previewQR (previewQR [qrW4] "w4").store "w4").directive =
      (previewQR [qrW4] "w4").directive ∧
    (previewQR [qrW4] "w4").directive =
      .previewPage qrW4.title "link" (previewBody qrW4.currentContent)
        qrW4.scanCount :=
  ⟨⟨by decide, by decide⟩,
    (previewQR_pure_idempotent [qrW4] "w4").1 2,
    (previewQR_pure_idempotent [qrW4] "w4").2.1,
    ((previewQR_pure_idempotent [qrW4] "w4").2.2 qrW4 (by decide)).2 (by decide)⟩

/-- C9: the short-redirect endpoint has no password gate. On a `link` record it
counts the scan (`scanCount + 1`, `lastScanned := now`) and redirects to the
stored URL — the settings, password included, play no role; on any other tag
it redirects to the scan page and leaves the repository untouched. -/
theorem quickRedirect_no_password_gate (store : Store) (id : String) (now : Nat)
    (qr : DynamicQR)
    (hfind : findOneActive store id = some qr) :
    (qr.currentContent.type = "link" →
      (quickRedirect store id now).directive =
        .redirect (qr.currentContent.url.getD "") ∧
      ∃ qr2, findOneById (quickRedirect store id now).store id = some qr2 ∧
        qr2.scanCount = qr.scanCount + 1 ∧ qr2.lastScanned = some now ∧
        qr2.currentContent = qr.currentContent) ∧
    (qr.currentContent.type ≠ "link" →
      quickRedirect store id now = ⟨.redirect ("/scan/" ++ id), store⟩) := by
  obtain ⟨hmem, hid, hact⟩ := findOneActive_mem hfind
  constructor
  · intro htag
    constructor
    · simp [quickRedirect, hfind, htag, saveRecord_unmodified, incrementScan]
    · refine ⟨preSave (incrementScan qr now), ?_, ?_, ?_, ?_⟩
      · have hst : (quickRedirect store id now).store =
            persistRecord store (incrementScan qr now) := by
          simp [quickRedirect, hfind, htag, saveRecord_unmodified]
        rw [hst]
        apply findOneById_persistRecord
        · simpa [incrementScan] using hid
        · exact findOneById_isSome hmem hid
      · rw [preSave_scanCount]; rfl
      · rw [preSave_lastScanned]; rfl
      · rw [preSave_currentContent]; rfl
  · intro htag
    have hne : (qr.currentContent.type == "link") = false := by simp [htag]
    simp [quickRedirect, hfind, hne]

/-- Record used by the C9 witness: password-protected active `link` record. -/
def qrW9 : DynamicQR :=
  { id := "w9"
    title := "W9"
    qrCodePath := "img"
    currentContent := { type := "link", url := some "https://target.example" }
    scanCount := 5
    settings := { password := some "abcd" } }

/-- Record used by the C9 witness: password-protected active `text` record. -/
def qrW9b : DynamicQR :=
  { id := "w9b"
    title := "W9b"
    qrCodePath := "img"
    currentContent := { type := "text", text := some "hi" }
    scanCount := 5
    settings := { password := some "abcd" } }

/-- Witness for C9: on the password-protected `link` record the redirect goes
to the stored URL (no password supplied anywhere), and on the `text` record
the endpoint redirects to the scan page without touching the store. -/
theorem quickRedirect_no_password_gate_witness :
    (findOneActive [qrW9] "w9" = some qrW9 ∧ qrW9.currentContent.type = "link" ∧
      qrW9.settings.password = some "abcd") ∧
    (quickRedirect [qrW9] "w9" 4).directive = .redirect "https://target.example" ∧
    (findOneActive [qrW9b] "w9b" = some qrW9b ∧
      qrW9b.currentContent.type ≠ "link") ∧
    quickRedirect [qrW9b] "w9b" 4 = ⟨.redirect "/scan/w9b", [qrW9b]⟩ :=
  ⟨⟨by decide, by decide, by decide⟩,
    ((quickRedirect_no_password_gate [qrW9] "w9" 4 qrW9 (by decide)).1 (by decide)).1,
    ⟨by decide, by decide⟩,
    (quickRedirect_no_password_gate [qrW9b] "w9b" 4 qrW9b (by decide)).2 (by decide)⟩

/-- Record used against C10: password-protected, with a `text` payload, a
content description and a last-scan timestamp. -/
def qrC10 : DynamicQR :=
  { id := "qx"
    title := "TX"
    qrCodePath := "img"
    currentContent :=
      { type := "text"
        text := some "secret body"
        description := some "content note" }
    scanCount := 8
    createdDate := 100
    lastScanned := some 777
    settings := { password := some "pw123" } }

/-- C10 counterexample: the claim says the protected response contains only
the six listed fields; the code additionally always sets a `description`
field (a fixed notice string), so the response is not limited to those six. -/
theorem scanInfo_protected_extra_description_field :
    ∃ r, getQRScanInfo [qrC10] "qx" = .ok r ∧
      r.description = some "Bu QR code parol bilan himoyalangan" ∧
      r.description ≠ none := by
  refine ⟨_, rfl, by decide, by decide⟩

/-- C10 amended: for a password-protected active record the scan-info response
is exactly the six base fields (id, title, content tag, scan count, creation
date, protected flag) plus the fixed notice string in `description`; every
other field — text preview, URL data, file metadata, contact fields,
`lastScanned` — is absent, whatever the record's content holds. -/
theorem scanInfo_protected_response_shape (store : Store) (id : String)
    (qr : DynamicQR) (pw : String)
    (hfind : findOneActive store id = some qr)
    (hpw : qr.settings.password = some pw)
    (hne : pw ≠ "") :
    getQRScanInfo store id = .ok
      { id := qr.id
        title := qr.title
        contentType := qr.currentContent.type
        scanCount := qr.scanCount
        createdDate := qr.createdDate
        isPasswordProtected := true
        description := some "Bu QR code parol bilan himoyalangan" } := by
  have ht : truthy qr.settings.password = true := by
    rw [hpw]
    simp [truthy, hne]
  simp [getQRScanInfo, hfind, ht]

/-- Witness for the amended C10 at the concrete protected record: no payload
field and no `lastScanned` despite the record carrying both. -/
theorem scanInfo_protected_response_shape_witness :
    (findOneActive [qrC10] "qx" = some qrC10 ∧
      qrC10.settings.password = some "pw123" ∧ ("pw123" : String) ≠ "") ∧
    getQRScanInfo [qrC10] "qx" = .ok
      { id := "qx"
        title := "TX"
        contentType := "text"
        scanCount := 8
        createdDate := 100
        isPasswordProtected := true
        description := some "Bu QR code parol bilan himoyalangan" } :=
  ⟨⟨by decide, by decide, by decide⟩,
    scanInfo_protected_response_shape [qrC10] "qx" qrC10 "pw123" (by decide) (by decide)
      (by decide)⟩

/-- C7: on a counted resolve of a `file` record (record found, password gate
passed) the dispatcher streams the blob with disposition `inline` exactly for
the image/pdf/text/video/audio mime families and `attachment` otherwise, and
answers the blob-missing page — a directive distinct from the record-level
not-found page — when the referenced blob path is absent or not in the blob
store. -/
theorem scanQR_file_dispatch (store : Store) (blobs : BlobStore) (id : String)
    (provided format : Option String) (now : Nat) (qr : DynamicQR)
    (hfind : findOneActive store id = some qr)
    (hchk : checkQRPassword qr provided = true)
    (htag : qr.currentContent.type = "file") :
    ((truthy qr.currentContent.filePath = true ∧
        fsExists blobs (qr.currentContent.filePath.getD "") = true) →
      (scanQR store blobs id provided format now).directive =
        .streamFile (qr.currentContent.filePath.getD "")
          (qr.currentContent.mimeType.getD "") (qr.currentContent.fileSize.getD 0)
          (qr.currentContent.originalName.getD "")
          (if isViewableMime (qr.currentContent.mimeType.getD "") then "inline"
           else "attachment")) ∧
    ((if isViewableMime (qr.currentContent.mimeType.getD "") then "inline"
      else "attachment") = "inline" ↔
        isViewableMime (qr.currentContent.mimeType.getD "") = true) ∧
    ((truthy qr.currentContent.filePath = false ∨
        fsExists blobs (qr.currentContent.filePath.getD "") = false) →
      (scanQR store blobs id provided format now).directive =
        .blobMissingPage qr.title (qr.scanCount + 1)) ∧
    (∀ a b c, Directive.blobMissingPage a b ≠ Directive.notFoundPage c) := by
  refine ⟨?_, ?_, ?_, ?_⟩
  · rintro ⟨h1, h2⟩
    simp [scanQR, hfind, hchk, htag, saveRecord_unmodified, incrementScan,
      handleFileServing, h1, h2]
  · by_cases hv : isViewableMime (qr.currentContent.mimeType.getD "") = true
    · simp [hv]
    · simp only [Bool.not_eq_true] at hv
      simp [hv]
  · rintro (h1 | h1) <;>
      simp [scanQR, hfind, hchk, htag, saveRecord_unmodified, incrementScan,
        handleFileServing, h1]
  · intro a b c h
    exact Directive.noConfusion h

/-- Record used by the C7 witness: an active `file` record bound to a pdf
blob. -/
def qrW7 : DynamicQR :=
  { id := "w7"
    title := "W7"
    qrCodePath := "img"
    currentContent :=
      { type := "file"
        fileName := some "doc.pdf"
        originalName := some "menu.pdf"
        filePath := some "blobP"
        fileSize := some 123
        mimeType := some "application/pdf" }
    scanCount := 2 }

/-- Witness for C7: with the blob present the pdf streams inline; with an
empty blob store the same record yields the blob-missing page. -/
theorem scanQR_file_dispatch_witness :
    (findOneActive [qrW7] "w7" = some qrW7 ∧ checkQRPassword qrW7 none = true ∧
      qrW7.currentContent.type = "file" ∧ truthy qrW7.currentContent.filePath = true ∧
      fsExists ["blobP"] "blobP" = true ∧ fsExists [] "blobP" = false) ∧
    (scanQR [qrW7] ["blobP"] "w7" none none 8).directive =
      .streamFile "blobP" "application/pdf" 123 "menu.pdf" "inline" ∧
    (scanQR [qrW7] [] "w7" none none 8).directive = .blobMissingPage "W7" 3 :=
  ⟨⟨by decide, by decide, by decide, by decide, by decide, by decide⟩,
    by
      have h := (scanQR_file_dispatch [qrW7] ["blobP"] "w7" none none 8 qrW7
        (by decide) (by decide) (by decide)).1 ⟨by decide, by decide⟩
      exact h.trans (by decide),
    by
      have h := (scanQR_file_dispatch [qrW7] [] "w7" none none 8 qrW7
        (by decide) (by decide) (by decide)).2.2.1 (Or.inr (by decide))
      exact h.trans (by decide)⟩

/-- C6: the allocator tries at most the 5 generated candidates in order: it
fails exactly when all 5 candidates already have a record, it returns the
first candidate with no existing record, any returned id is fresh and one of
the 5 candidates, and exhaustion surfaces from `createQR` as the
`AllocationExhausted` error with HTTP status 500 and no record persisted. -/
theorem allocateQRId_spec (store : Store) (gen : Nat → String)
    (images : BlobStore) (title desc : Option String) (igOk sOk : Bool) (now : Nat)
    (htitle : truthy title = true) (hlen : (title.getD "").length ≤ 200) :
    (allocateQRId store gen = none ↔
      ∀ i, i < 5 → (findOneById store (gen i)).isSome = true) ∧
    (∀ i, i < 5 → findOneById store (gen i) = none →
      (∀ j, j < i → (findOneById store (gen j)).isSome = true) →
      allocateQRId store gen = some (gen i)) ∧
    (∀ c, allocateQRId store gen = some c →
      findOneById store c = none ∧ ∃ i, i < 5 ∧ gen i = c) ∧
    (allocateQRId store gen = none →
      (createQR store images title desc gen igOk sOk now).error =
          some .allocationExhausted ∧
      (createQR store images title desc gen igOk sOk now).store = store ∧
      (createQR store images title desc gen igOk sOk now).images = images) ∧
    errorStatus .allocationExhausted = 500 := by
  have hexp : allocateQRId store gen =
      allocateFirstFresh store [gen 0, gen 1, gen 2, gen 3, gen 4] := rfl
  have hnlen : ¬((title.getD "").length > 200) := by omega
  refine ⟨?_, ?_, ?_, ?_, rfl⟩
  · constructor
    · intro hnone
      rw [hexp] at hnone
      cases h0 : findOneById store (gen 0) with
      | none => simp [allocateFirstFresh, h0] at hnone
      | some v0 =>
        cases h1 : findOneById store (gen 1) with
        | none => simp [allocateFirstFresh, h0, h1] at hnone
        | some v1 =>
          cases h2 : findOneById store (gen 2) with
          | none => simp [allocateFirstFresh, h0, h1, h2] at hnone
          | some v2 =>
            cases h3 : findOneById store (gen 3) with
            | none => simp [allocateFirstFresh, h0, h1, h2, h3] at hnone
            | some v3 =>
              cases h4 : findOneById store (gen 4) with
              | none => simp [allocateFirstFresh, h0, h1, h2, h3, h4] at hnone
              | some v4 =>
                intro i hi
                interval_cases i <;> simp [h0, h1, h2, h3, h4]
    · intro hall
      rw [hexp]
      obtain ⟨v0, hv0⟩ := Option.isSome_iff_exists.mp (hall 0 (by omega))
      obtain ⟨v1, hv1⟩ := Option.isSome_iff_exists.mp (hall 1 (by omega))
      obtain ⟨v2, hv2⟩ := Option.isSome_iff_exists.mp (hall 2 (by omega))
      obtain ⟨v3, hv3⟩ := Option.isSome_iff_exists.mp (hall 3 (by omega))
      obtain ⟨v4, hv4⟩ := Option.isSome_iff_exists.mp (hall 4 (by omega))
      simp [allocateFirstFresh, hv0, hv1, hv2, hv3, hv4]
  · intro i hi hfresh hprev
    rw [hexp]
    interval_cases i
    · simp [allocateFirstFresh, hfresh]
    · obtain ⟨v0, hv0⟩ := Option.isSome_iff_exists.mp (hprev 0 (by omega))
      simp [allocateFirstFresh, hv0, hfresh]
    · obtain ⟨v0, hv0⟩ := Option.isSome_iff_exists.mp (hprev 0 (by omega))
      obtain ⟨v1, hv1⟩ := Option.isSome_iff_exists.mp (hprev 1 (by omega))
      simp [allocateFirstFresh, hv0, hv1, hfresh]
    · obtain ⟨v0, hv0⟩ := Option.isSome_iff_exists.mp (hprev 0 (by omega))
      obtain ⟨v1, hv1⟩ := Option.isSome_iff_exists.mp (hprev 1 (by omega))
      obtain ⟨v2, hv2⟩ := Option.isSome_iff_exists.mp (hprev 2 (by omega))
      simp [allocateFirstFresh, hv0, hv1, hv2, hfresh]
    · obtain ⟨v0, hv0⟩ := Option.isSome_iff_exists.mp (hprev 0 (by omega))
      obtain ⟨v1, hv1⟩ := Option.isSome_iff_exists.mp (hprev 1 (by omega))
      obtain ⟨v2, hv2⟩ := Option.isSome_iff_exists.mp (hprev 2 (by omega))
      obtain ⟨v3, hv3⟩ := Option.isSome_iff_exists.mp (hprev 3 (by omega))
      simp [allocateFirstFresh, hv0, hv1, hv2, hv3, hfresh]
  · intro c hc
    exact allocateQRId_sound store gen c hc
  · intro hnone
    refine ⟨?_, ?_, ?_⟩ <;> simp [createQR, htitle, hnlen, hnone]

/-- Record layout for the C6 witness: one existing record per occupied id. -/
def occupied (i : String) : DynamicQR :=
  { id := i
    title := "T"
    qrCodePath := "img"
    currentContent := { type := "empty" } }

/-- Witness for C6: with candidates `c0..c4` and the first two taken, the
allocator returns `c2`; with all five taken, `createQR` fails with
`AllocationExhausted` (HTTP 500) and persists nothing. -/
theorem allocateQRId_spec_witness :
    (truthy (some "T") = true ∧ (("T" : String)).length ≤ 200) ∧
    allocateQRId [occupied "c0", occupied "c1"] (fun i => "c" ++ toString i) =
      some "c2" ∧
    (createQR [occupied "c0", occupied "c1", occupied "c2", occupied "c3", occupied "c4"]
      [] (some "T") none (fun i => "c" ++ toString i) true true 7).error =
      some .allocationExhausted :=
  ⟨⟨by decide, by decide⟩,
    by
      have h := ((allocateQRId_spec [occupied "c0", occupied "c1"]
        (fun i => "c" ++ toString i) [] (some "T") none true true 7 (by decide)
        (by decide)).2.1) 2 (by omega) (by decide) ?_
      · simpa using h
      · intro j hj
        interval_cases j <;> decide,
    by
      have h := ((allocateQRId_spec
        [occupied "c0", occupied "c1", occupied "c2", occupied "c3", occupied "c4"]
        (fun i => "c" ++ toString i) [] (some "T") none true true 7 (by decide)
        (by decide)).2.2.2.1) ?_
      · exact h.1
      · have hall := ((allocateQRId_spec
          [occupied "c0", occupied "c1", occupied "c2", occupied "c3", occupied "c4"]
          (fun i => "c" ++ toString i) [] (some "T") none true true 7 (by decide)
          (by decide)).1).mpr ?_
        · exact hall
        · intro i hi
          interval_cases i <;> decide⟩

lemma preSave_fixpoint {qr : DynamicQR} (h : qr.contentHistory.length ≤ 50) :
    preSave qr = qr := by
  unfold preSave
  rw [if_neg (by omega)]

/-- C8: record creation binds the image before committing the record. When
any step fails — validation, allocation, image generation or the final save —
nothing is persisted and the image directory ends unchanged (the image
written before a failing save is deleted again); on success the persisted
record's `qrCodePath` is the bound image path and that image exists. The
freshness hypothesis says none of the candidate image paths pre-exist. -/
theorem createQR_image_bound_before_commit (store : Store) (images : BlobStore)
    (title desc : Option String) (gen : Nat → String) (igOk sOk : Bool) (now : Nat)
    (hfresh : ∀ i, i < 5 → fsExists images (qrImagePath (gen i)) = false) :
    ((createQR store images title desc gen igOk sOk now).error.isSome →
      (createQR store images title desc gen igOk sOk now).store = store ∧
      (createQR store images title desc gen igOk sOk now).images = images) ∧
    ((createQR store images title desc gen igOk sOk now).error = none →
      ∃ qr2, (createQR store images title desc gen igOk sOk now).created = some qr2 ∧
        findOneById (createQR store images title desc gen igOk sOk now).store qr2.id =
          some qr2 ∧
        qr2.qrCodePath = qrImagePath qr2.id ∧
        fsExists (createQR store images title desc gen igOk sOk now).images
          qr2.qrCodePath = true) := by
  cases ht : truthy title with
  | false =>
    constructor
    · intro _
      constructor <;> simp [createQR, ht]
    · intro h
      simp [createQR, ht] at h
  | true =>
    by_cases hl : (title.getD "").length > 200
    · constructor
      · intro _
        constructor <;> simp [createQR, ht, hl]
      · intro h
        simp [createQR, ht, hl] at h
    · cases halloc : allocateQRId store gen with
      | none =>
        constructor
        · intro _
          constructor <;> simp [createQR, ht, hl, halloc]
        · intro h
          simp [createQR, ht, hl, halloc] at h
      | some qrId =>
        obtain ⟨hnone, i, hi, hgi⟩ := allocateQRId_sound store gen qrId halloc
        have hnoimg : fsExists images (qrImagePath qrId) = false := by
          rw [← hgi]
          exact hfresh i hi
        have hdel : deleteQRCode images qrId = images := by
          unfold deleteQRCode
          rw [hnoimg]
          simp
        have hdel2 : deleteQRCode (qrImagePath qrId :: images) qrId = images := by
          unfold deleteQRCode
          have hex : fsExists (qrImagePath qrId :: images) (qrImagePath qrId) = true := by
            simp [fsExists]
          rw [hex]
          simp [List.erase_cons_head]
        have hvalN : validateHistory (newQRRecord qrId title desc now) = true := rfl
        have hsvN := saveRecord_of_valid store (newQRRecord qrId title desc now)
          true hvalN
        cases hig : igOk with
        | false =>
          constructor
          · intro _
            constructor <;> simp [createQR, ht, hl, halloc, hdel]
          · intro h
            simp [createQR, ht, hl, halloc] at h
        | true =>
          cases hs : sOk with
          | false =>
            constructor
            · intro _
              constructor <;> simp [createQR, ht, hl, halloc, hsvN, hdel2]
            · intro h
              simp [createQR, ht, hl, halloc, hsvN] at h
          | true =>
            have houtcome : createQR store images title desc gen true true now =
                ⟨none, persistRecord store (newQRRecord qrId title desc now),
                  qrImagePath qrId :: images,
                  some (preSave (newQRRecord qrId title desc now))⟩ := by
              simp [createQR, ht, hl, halloc, hsvN]
            rw [houtcome]
            constructor
            · intro h
              simp at h
            · intro _
              refine ⟨_, rfl, ?_, ?_, ?_⟩
              · rw [preSave_id]
                exact findOneById_persistRecord_fresh store _ hnone
              · rw [preSave_qrCodePath, preSave_id]
                simp [newQRRecord]
              · rw [preSave_qrCodePath]
                simp [newQRRecord, fsExists]

/-- Witness for C8: creating a record in an empty system succeeds with the
image bound; the same creation with a failing save leaves the repository and
the image directory empty. -/
theorem createQR_image_bound_before_commit_witness :
    (∀ i, i < 5 →
      fsExists [] (qrImagePath ((fun j => "id" ++ toString j) i)) = false) ∧
    (∃ qr2, (createQR [] [] (some "Menu") none (fun j => "id" ++ toString j)
        true true 7).created = some qr2 ∧
      findOneById (createQR [] [] (some "Menu") none (fun j => "id" ++ toString j)
        true true 7).store qr2.id = some qr2 ∧
      qr2.qrCodePath = qrImagePath qr2.id ∧
      fsExists (createQR [] [] (some "Menu") none (fun j => "id" ++ toString j)
        true true 7).images qr2.qrCodePath = true) ∧
    ((createQR [] [] (some "Menu") none (fun j => "id" ++ toString j)
        true false 7).store = [] ∧
      (createQR [] [] (some "Menu") none (fun j => "id" ++ toString j)
        true false 7).images = []) :=
  ⟨fun _ _ => rfl,
    (createQR_image_bound_before_commit [] [] (some "Menu") none
      (fun j => "id" ++ toString j) true true 7 (fun _ _ => rfl)).2 (by decide),
    (createQR_image_bound_before_commit [] [] (some "Menu") none
      (fun j => "id" ++ toString j) true false 7 (fun _ _ => rfl)).1 (by decide)⟩

/-- A dummy superseded content entry filling a record's history. -/
def histFiller : HistoryEntry :=
  { type := "text"
    content := { type := "text", text := some "old" }
    changedAt := 0 }

/-- Record at the history bound: an active record whose `contentHistory`
already holds 50 entries (reachable through 50 successful updates). -/
def qrC3 : DynamicQR :=
  { id := "q3"
    title := "T3"
    qrCodePath := "img3"
    currentContent := { type := "empty" }
    contentHistory := List.replicate 50 histFiller }

/-- A valid text-update call used against the record at the bound. -/
def reqW3 : UpdateReq := { contentType := some "text", text := some "hi" }

/-- C3: the claim says history stays within 50 entries with the oldest
entries evicted first when the bound is exceeded. The code instead rejects
the update: Mongoose validates the modified `contentHistory` (the schema
validator at `DynamicQR.js:173-183`) before the user pre-save trim hook at
`DynamicQR.js:211-217` runs, so the save carrying the 51st entry fails with
a ValidationError, nothing is evicted and nothing is persisted — on a record
with 50 history entries every further content update fails even though the
submitted text is valid. -/
theorem contentHistory_update_rejected_at_bound :
    qrC3.contentHistory.length = 50 ∧
    1 ≤ (jsTrim "hi").length ∧ ("hi" : String).length ≤ 5000 ∧
    (updateQRContent [qrC3] [] "q3" reqW3 6 true).error = some .historyTooLong ∧
    (updateQRContent [qrC3] [] "q3" reqW3 6 true).store = [qrC3] := by
  refine ⟨?_, ?_, ?_, ?_, ?_⟩ <;> decide
